import Mathlib

/-!
Verification of the `pyramid-scheme-to-felt` export pipeline.

This file is a shallow embedding of `src/index.js`: the script fetches
approved Airtable records, projects them onto a fixed field list, renders
a CSV with csv-stringify, publishes it through a local express server and
an ngrok tunnel, and then creates or refreshes a Felt map layer pointing
at the published URL.  Pure record projection and CSV rendering are
embedded as Lean functions; the networked synchronizer is embedded as a
function over an explicit network oracle that also records the requests
it issues; the top-level orchestration is embedded as a function from the
outcomes of its effectful steps to an execution trace.
-/

/-- A large-thumbnail object inside an Airtable attachment
(the `thumbnails.large` object read in `src/index.js`). -/
structure LargeThumb where
  url : Option String
deriving DecidableEq, Repr

/-- The `thumbnails` object of an Airtable attachment. -/
structure Thumbs where
  large : Option LargeThumb
deriving DecidableEq, Repr

/-- An Airtable attachment object as used by the `Picture` field: a direct
`url` and an optional nested `thumbnails.large.url`. -/
structure Attachment where
  url : Option String
  thumbnails : Option Thumbs
deriving DecidableEq, Repr

/-- A JavaScript field value as relevant to this pipeline.  `null` and
`undefined` are merged into `vNull`; arrays of attachment objects model
the `Picture` field's value. -/
inductive JVal where
  | vNull
  | vStr (s : String)
  | vNum (n : Int)
  | vBool (b : Bool)
  | vAttachments (xs : List Attachment)
deriving DecidableEq, Repr

/-- JavaScript truthiness on the modelled values: `null`/`undefined`,
`""`, `0` and `false` are falsy; every array (even an empty one) is
truthy. -/
def truthy : JVal → Bool
  | .vNull => false
  | .vStr s => s != ""
  | .vNum n => n != 0
  | .vBool b => b
  | .vAttachments _ => true

/-- The JavaScript `a || b` operator on the modelled values. -/
def jsOr (a b : JVal) : JVal :=
  if truthy a then a else b

/-- Coerce the result of an optional-chain URL access to a value:
a missing property is `undefined`, modelled as `vNull`. -/
def optUrlToJVal : Option String → JVal
  | some s => .vStr s
  | none => .vNull

/-- The optional chain `pictureField?.thumbnails?.large?.url`. -/
def thumbUrl (a : Attachment) : Option String :=
  (a.thumbnails.bind Thumbs.large).bind LargeThumb.url

/-- One Airtable record: its `fields` object, as a name-value list. -/
structure AirRecord where
  fields : List (String × JVal)
deriving DecidableEq, Repr

/-- The fixed field list of `prepareCsvData` in `src/index.js`. -/
def desiredFields : List String :=
  ["Latitude", "Longitude", "Picture", "Submitted At"]

/-- One cell of the projection in `prepareCsvData` (`src/index.js`):
`record.fields[fieldName]`, with the `Picture` special case
`pictureField?.thumbnails?.large?.url || pictureField.url || null` for a
non-empty attachment array, and `field || null` otherwise. -/
def projectField (fields : List (String × JVal)) (fieldName : String) : JVal :=
  let field := (fields.lookup fieldName).getD .vNull
  if fieldName = "Picture" then
    match field with
    | .vAttachments (pictureField :: _) =>
        jsOr (optUrlToJVal (thumbUrl pictureField))
          (jsOr (optUrlToJVal pictureField.url) .vNull)
    | _ => jsOr field .vNull
  else jsOr field .vNull

/-- One projected CSV row: the record's fields mapped over the fixed
field list, in order. -/
def projectRecord (fields : List (String × JVal)) : List JVal :=
  desiredFields.map (projectField fields)

/-- The rows handed to csv-stringify: `[desiredFields, ...data]`, the
header row followed by one projected row per record, in input order. -/
def prepareRows (records : List AirRecord) : List (List JVal) :=
  desiredFields.map JVal.vStr :: records.map (fun r => projectRecord r.fields)

/-- JSON string escaping for backslash and double quote, as performed by
`JSON.stringify` on the string values that occur here. -/
def jsonEscapeChars : List Char → List Char
  | [] => []
  | c :: cs =>
    if c = '\\' then '\\' :: '\\' :: jsonEscapeChars cs
    else if c = '"' then '\\' :: '"' :: jsonEscapeChars cs
    else c :: jsonEscapeChars cs

/-- A JSON string literal. -/
def jsonStr (s : String) : String :=
  "\"" ++ String.mk (jsonEscapeChars s.data) ++ "\""

/-- JSON rendering of a large-thumbnail object; `undefined` properties
are omitted, as `JSON.stringify` does. -/
def jsonOfLargeThumb (t : LargeThumb) : String :=
  match t.url with
  | some u => "\x7b\"url\":" ++ jsonStr u ++ "\x7d"
  | none => "\x7b\x7d"

/-- JSON rendering of a `thumbnails` object. -/
def jsonOfThumbs (t : Thumbs) : String :=
  match t.large with
  | some lt => "\x7b\"large\":" ++ jsonOfLargeThumb lt ++ "\x7d"
  | none => "\x7b\x7d"

/-- JSON rendering of one attachment object. -/
def jsonOfAttachment (a : Attachment) : String :=
  match a.url, a.thumbnails with
  | some u, some t =>
      "\x7b\"url\":" ++ jsonStr u ++ ",\"thumbnails\":" ++ jsonOfThumbs t ++ "\x7d"
  | some u, none => "\x7b\"url\":" ++ jsonStr u ++ "\x7d"
  | none, some t => "\x7b\"thumbnails\":" ++ jsonOfThumbs t ++ "\x7d"
  | none, none => "\x7b\x7d"

/-- JSON rendering of an attachment array. -/
def jsonOfAttachments (xs : List Attachment) : String :=
  "[" ++ String.intercalate "," (xs.map jsonOfAttachment) ++ "]"

/-- csv-stringify's default value casting: strings pass through, numbers
print in decimal, `null`/`undefined` become the empty string, booleans
cast to `"1"`/`""`, and objects are JSON-stringified. -/
def castCell : JVal → String
  | .vNull => ""
  | .vStr s => s
  | .vNum n => toString n
  | .vBool b => if b then "1" else ""
  | .vAttachments xs => jsonOfAttachments xs

/-- A character forcing csv-stringify to quote the containing field:
the delimiter, the quote character, or a record-delimiter character. -/
def isSpecialChar (c : Char) : Bool :=
  c == ',' || c == '"' || c == '\n' || c == '\r'

/-- CSV quote escaping: a double quote is doubled. -/
def escChars : List Char → List Char
  | [] => []
  | c :: cs => if c = '"' then '"' :: '"' :: escChars cs else c :: escChars cs

/-- One serialized CSV field: quoted (with doubled inner quotes) exactly
when it contains a special character, copied verbatim otherwise. -/
def serFieldChars (cs : List Char) : List Char :=
  if cs.any isSpecialChar then '"' :: (escChars cs ++ ['"']) else cs

/-- Join serialized fields with the `,` delimiter. -/
def joinComma : List (List Char) → List Char
  | [] => []
  | [f] => f
  | f :: fs => f ++ ',' :: joinComma fs

/-- One serialized CSV record (without its record delimiter). -/
def serRowChars (cells : List (List Char)) : List Char :=
  joinComma (cells.map serFieldChars)

/-- A serialized CSV document: every record followed by the `\n` record
delimiter, csv-stringify's default. -/
def serDocChars (rows : List (List (List Char))) : List Char :=
  (rows.map (fun r => serRowChars r ++ ['\n'])).flatten

/-- Serialize a document of string cells. -/
def stringifyDoc (doc : List (List String)) : String :=
  String.mk (serDocChars (doc.map (fun r => r.map String.data)))

/-- The document `[desiredFields, ...data]` after csv-stringify's value
cast: every cell as the string it is rendered as. -/
def csvCells (records : List AirRecord) : List (List String) :=
  (prepareRows records).map (fun r => r.map castCell)

/-- `prepareCsvData` (`src/index.js`): project the records onto the fixed
field list and serialize `[desiredFields, ...data]` with csv-stringify's
default options (`header: false`). -/
def prepareCsvData (records : List AirRecord) : String :=
  stringifyDoc (csvCells records)

/-- Modelled from the spec: a standard RFC-4180 CSV parser, referenced by
the spec's round-trip property but present nowhere in the repository.
A character-level state machine with a quoted-field mode, doubled-quote
escapes inside quoted fields, and `\n` / `\r\n` / `\r` accepted as record
delimiters; an unterminated final record is flushed at end of input. -/
def csvParse (input : List Char) (inQ : Bool) (field : List Char)
    (row : List String) (acc : List (List String)) : List (List String) :=
  match input with
  | [] =>
    if field = [] ∧ row = [] then acc else acc ++ [row ++ [String.mk field]]
  | c :: cs =>
    if inQ then
      if c = '"' then
        match hcs : cs with
        | c2 :: cs2 =>
          if c2 = '"' then csvParse cs2 true (field ++ ['"']) row acc
          else csvParse cs false field row acc
        | [] => csvParse cs false field row acc
      else csvParse cs true (field ++ [c]) row acc
    else
      if c = '"' then csvParse cs true field row acc
      else if c = ',' then csvParse cs false [] (row ++ [String.mk field]) acc
      else if c = '\n' then csvParse cs false [] [] (acc ++ [row ++ [String.mk field]])
      else if c = '\r' then
        match hcs : cs with
        | c2 :: cs2 =>
          if c2 = '\n' then csvParse cs2 false [] [] (acc ++ [row ++ [String.mk field]])
          else csvParse cs false [] [] (acc ++ [row ++ [String.mk field]])
        | [] => csvParse cs false [] [] (acc ++ [row ++ [String.mk field]])
      else csvParse cs false (field ++ [c]) row acc
termination_by input.length
decreasing_by
  all_goals simp_wf
  all_goals simp_all only [List.length_cons]
  all_goals omega

/-- Parse a CSV document into its records of string fields. -/
def parseCsv (s : String) : List (List String) :=
  csvParse s.data false [] [] []

/-- The first character of `rest`, if any, is not a double quote.  This
holds of everything that can follow a closing field quote in a serialized
document. -/
def headNotQuote : List Char → Prop
  | c :: _ => c ≠ '"'
  | [] => True

/-- A layer on the Felt platform: an opaque id and a display name. -/
structure Layer where
  id : String
  name : String
deriving DecidableEq, Repr

/-- The JSON value of a platform response: a layer list (for the
layer-list endpoint) or an opaque object (upload / refresh results). -/
inductive ApiResult where
  | layers (ls : List Layer)
  | data (d : String)
deriving DecidableEq, Repr

/-- An HTTP response as the script consumes it: the `ok` flag, status
code, `statusText`, parsed JSON, and the raw body text. -/
structure HttpResponse where
  ok : Bool
  status : Nat
  statusText : String
  json : ApiResult
  bodyText : String
deriving DecidableEq, Repr

/-- The outbound Felt API requests the synchronizer can issue. -/
inductive Request where
  | listLayers (feltMapId : String)
  | upload (feltMapId layerName importUrl : String)
  | refresh (feltMapId layerId importUrl : String)
deriving DecidableEq, Repr

/-- A network oracle: given its state and a request, produce the response
and the next state. -/
structure Net (σ : Type) where
  respond : σ → Request → HttpResponse × σ

/-- `checkLayerExists` (`src/index.js`): GET the map's layer list and test
`layers.some(layer => layer.name === layerName)`.  A non-success response
throws an error whose message appends the response's `statusText`.  The
issued requests are returned for inspection. -/
def checkLayerExists {σ : Type} (N : Net σ) (s : σ) (feltMapId layerName : String) :
    Except String Bool × List Request × σ :=
  let rs := N.respond s (.listLayers feltMapId)
  if !rs.1.ok then
    (.error ("Failed to fetch layers: " ++ rs.1.statusText), [.listLayers feltMapId], rs.2)
  else
    match rs.1.json with
    | .layers layers =>
        (.ok (layers.any (fun layer => layer.name == layerName)), [.listLayers feltMapId], rs.2)
    | .data _ => (.error "TypeError: layers.some is not a function", [.listLayers feltMapId], rs.2)

/-- `createOrRefreshFeltLayer` (`src/index.js`): check existence, then
either re-fetch the layer list, `find` the named layer and POST a refresh
against its id, or POST an upload creating the layer.  Each non-success
response throws with that response's `statusText`.  When the existence
check said the layer exists but the second fetch no longer finds it, the
function falls off both branches and returns `undefined` (`none`). -/
def createOrRefreshFeltLayer {σ : Type} (N : Net σ) (s : σ)
    (feltMapId csvUrl layerName : String) :
    Except String (Option ApiResult) × List Request × σ :=
  match checkLayerExists N s feltMapId layerName with
  | (.error e, reqs, s1) => (.error e, reqs, s1)
  | (.ok layerExists, reqs, s1) =>
    if layerExists then
      let rs := N.respond s1 (.listLayers feltMapId)
      let reqs2 := reqs ++ [.listLayers feltMapId]
      if !rs.1.ok then
        (.error ("Failed to fetch layers for refreshing: " ++ rs.1.statusText), reqs2, rs.2)
      else
        match rs.1.json with
        | .data _ => (.error "TypeError: layersData.find is not a function", reqs2, rs.2)
        | .layers layersData =>
          match layersData.find? (fun layer => layer.name == layerName) with
          | some existingLayer =>
            let rr := N.respond rs.2 (.refresh feltMapId existingLayer.id csvUrl)
            let reqs3 := reqs2 ++ [.refresh feltMapId existingLayer.id csvUrl]
            if !rr.1.ok then
              (.error ("Failed to refresh layer: " ++ rr.1.statusText), reqs3, rr.2)
            else (.ok (some rr.1.json), reqs3, rr.2)
          | none => (.ok none, reqs2, rs.2)
    else
      let ru := N.respond s1 (.upload feltMapId layerName csvUrl)
      let requ := reqs ++ [.upload feltMapId layerName csvUrl]
      if !ru.1.ok then
        (.error ("Failed to create new layer: " ++ ru.1.statusText), requ, ru.2)
      else (.ok (some ru.1.json), requ, ru.2)

/-- A mock Felt platform, tracking created layers by name: listing returns
the current layers, upload appends a freshly-named layer, refresh replaces
a layer's backing data and leaves the layer list unchanged. -/
structure Platform where
  layers : List Layer
  nextId : Nat
deriving DecidableEq, Repr

/-- The mock platform as a network oracle. -/
def feltMock : Net Platform :=
  ⟨fun p req =>
    match req with
    | .listLayers _ => (⟨true, 200, "OK", .layers p.layers, "layers"⟩, p)
    | .upload _ layerName _ =>
        (⟨true, 200, "OK", .data "created", "created"⟩,
         ⟨p.layers ++ [⟨"L" ++ toString p.nextId, layerName⟩], p.nextId + 1⟩)
    | .refresh _ _ _ => (⟨true, 200, "OK", .data "refreshed", "refreshed"⟩, p)⟩

/-- A scripted network oracle: the `i`-th fetch receives `script i`,
regardless of the request. -/
def scriptNet (script : Nat → HttpResponse) : Net Nat :=
  ⟨fun i _ => (script i, i + 1)⟩

/-- The platform state after one synchronizer run against the mock. -/
def syncPlatform (p : Platform) (feltMapId csvUrl layerName : String) : Platform :=
  (createOrRefreshFeltLayer feltMock p feltMapId csvUrl layerName).2.2

/-- How many layers of the platform carry the given name. -/
def countName (p : Platform) (layerName : String) : Nat :=
  (p.layers.filter (fun l => l.name == layerName)).length

/-- The observable trace of one pipeline run. -/
structure RunResult (σ : Type) where
  exitCode : Nat
  pipelineError : Option String
  csvData : Option String
  fileWritten : Bool
  listenerStarted : Bool
  tunnelStarted : Bool
  serverCloseCalls : Nat
  ngrokDisconnectCalls : Nat
  requests : List Request
  netState : σ
deriving Repr

/-- The top level of `src/index.js` as a trace function: fetch, the
empty-result early `process.exit(0)`, CSV preparation and the local file
write, the listener and tunnel startup inside `hostCsvWithNgrok`, layer
synchronization, and the `catch`/`finally` teardown.  `fetchResult` and
`ngrokConnect` stand for the outcomes of the Airtable query and of
`ngrok.connect`.  The outer `server` and `ngrokUrl` variables are
assigned only after `hostCsvWithNgrok` returns, so when `ngrok.connect`
rejects, the already-started listener receives no close call in the
`finally` block; and the `finally` block always ends in
`process.exit(0)`. -/
def runPipeline {σ : Type} (fetchResult : Except String (List AirRecord))
    (ngrokConnect : Except String String) (N : Net σ) (s0 : σ)
    (feltMapId layerName : String) : RunResult σ :=
  match fetchResult with
  | .error e => ⟨0, some e, none, false, false, false, 0, 0, [], s0⟩
  | .ok records =>
    if records.length = 0 then
      ⟨0, none, none, false, false, false, 0, 0, [], s0⟩
    else
      let csvData := prepareCsvData records
      match ngrokConnect with
      | .error e => ⟨0, some e, some csvData, true, true, false, 0, 0, [], s0⟩
      | .ok url =>
        match createOrRefreshFeltLayer N s0 feltMapId (url ++ "/offerings.csv") layerName with
        | (.error e, reqs, s1) => ⟨0, some e, some csvData, true, true, true, 1, 1, reqs, s1⟩
        | (.ok _, reqs, s1) => ⟨0, none, some csvData, true, true, true, 1, 1, reqs, s1⟩

/-- Substring test over character lists, used to state what an error
message does or does not carry. -/
def hasInfixList (s sub : List Char) : Bool :=
  (List.range (s.length + 1)).any (fun i => sub.isPrefixOf (s.drop i))

/-- Substring test on strings. -/
def strContainsSub (s sub : String) : Bool :=
  hasInfixList s.data sub.data

theorem any_of_find?_some {α : Type} {q : α → Bool} {l : List α} {a : α}
    (h : l.find? q = some a) : l.any q = true :=
  List.any_eq_true.mpr ⟨a, List.mem_of_find?_eq_some h, List.find?_some h⟩

theorem any_false_of_find?_none {α : Type} {q : α → Bool} {l : List α}
    (h : l.find? q = none) : l.any q = false :=
  List.any_eq_false.mpr (List.find?_eq_none.mp h)

theorem find?_append_of_none {α : Type} {q : α → Bool} {l1 l2 : List α}
    (h : l1.find? q = none) : (l1 ++ l2).find? q = l2.find? q := by
  induction l1 with
  | nil => rfl
  | cons x xs ih =>
    have hall := List.find?_eq_none.mp h
    have hx : q x = false := by
      have := hall x (by simp)
      simpa using this
    have hxs : xs.find? q = none :=
      List.find?_eq_none.mpr (fun a ha => hall a (by simp [ha]))
    rw [List.cons_append, List.find?_cons, hx]
    exact ih hxs

/-- C2 (amended): for a record whose `Picture` field is a non-empty
attachment array, the projected cell is the first attachment's
`thumbnails.large.url` when that nested URL is present and non-empty,
else its direct `url` when present and non-empty, else null; the
remaining attachments are ignored. -/
theorem picture_projection (fields : List (String × JVal)) (a : Attachment)
    (rest : List Attachment)
    (h : fields.lookup "Picture" = some (.vAttachments (a :: rest))) :
    (∀ t, thumbUrl a = some t → t ≠ "" → projectField fields "Picture" = .vStr t) ∧
    ((thumbUrl a = none ∨ thumbUrl a = some "") →
      ∀ u, a.url = some u → u ≠ "" → projectField fields "Picture" = .vStr u) ∧
    ((thumbUrl a = none ∨ thumbUrl a = some "") → (a.url = none ∨ a.url = some "") →
      projectField fields "Picture" = .vNull) := by
  refine ⟨?_, ?_, ?_⟩
  · intro t ht htne
    simp [projectField, h, ht, optUrlToJVal, jsOr, truthy, htne]
  · intro hthumb u hu hune
    rcases hthumb with ht | ht <;>
      simp [projectField, h, ht, hu, optUrlToJVal, jsOr, truthy, hune]
  · intro hthumb hurl
    rcases hthumb with ht | ht <;> rcases hurl with hu | hu <;>
      simp [projectField, h, ht, hu, optUrlToJVal, jsOr, truthy]

/-- Witness for C2: the three fallback branches at concrete records. -/
theorem picture_projection_witness :
    projectField [("Picture", JVal.vAttachments [⟨some "y", some ⟨some ⟨some "x"⟩⟩⟩])]
      "Picture" = .vStr "x" ∧
    projectField [("Picture", JVal.vAttachments [⟨some "y", some ⟨some ⟨some ""⟩⟩⟩])]
      "Picture" = .vStr "y" ∧
    projectField [("Picture", JVal.vAttachments [⟨none, none⟩])] "Picture" = .vNull :=
  ⟨(picture_projection [("Picture", JVal.vAttachments [⟨some "y", some ⟨some ⟨some "x"⟩⟩⟩])]
      ⟨some "y", some ⟨some ⟨some "x"⟩⟩⟩ [] rfl).1 "x" rfl (by decide),
   (picture_projection [("Picture", JVal.vAttachments [⟨some "y", some ⟨some ⟨some ""⟩⟩⟩])]
      ⟨some "y", some ⟨some ⟨some ""⟩⟩⟩ [] rfl).2.1 (Or.inr rfl) "y" rfl (by decide),
   (picture_projection [("Picture", JVal.vAttachments [⟨none, none⟩])]
      ⟨none, none⟩ [] rfl).2.2 (Or.inl rfl) (Or.inl rfl)⟩

/-- Counterexample to C2 as stated: when the first attachment's nested
`thumbnails.large.url` is present but the empty string, the code's `||`
chain skips it (JavaScript truthiness) and yields the direct `url`
instead of the present nested URL. -/
theorem picture_projection_cex :
    thumbUrl ⟨some "y", some ⟨some ⟨some ""⟩⟩⟩ = some "" ∧
    projectField [("Picture", JVal.vAttachments [⟨some "y", some ⟨some ⟨some ""⟩⟩⟩])]
      "Picture" = .vStr "y" ∧
    JVal.vStr "y" ≠ JVal.vStr "" := by
  refine ⟨rfl, rfl, by decide⟩

/-- C5 (confirmed): the produced document is the fixed header row followed
by exactly one projected row per input record, in input order, for every
record list. -/
theorem csv_header_and_rows (records : List AirRecord) :
    (prepareRows records).length = records.length + 1 ∧
    (prepareRows records).head? = some (desiredFields.map JVal.vStr) ∧
    ∀ i : Nat, ((prepareRows records).drop 1)[i]? =
      (records[i]?).map (fun r => projectRecord r.fields) := by
  refine ⟨by simp [prepareRows], by simp [prepareRows], ?_⟩
  intro i
  simp [prepareRows]

/-- C6 (amended): for a non-`Picture` field of the fixed list, the
projected cell is the record's raw value when it is present and truthy,
and null when it is missing or falsy (`0`, `""`, `false`, `null`);
projection is total, so a missing field never throws. -/
theorem non_picture_projection (fields : List (String × JVal)) (name : String)
    (hn : name ≠ "Picture") (hmem : name ∈ desiredFields) :
    (∀ v, fields.lookup name = some v → truthy v = true → projectField fields name = v) ∧
    (∀ v, fields.lookup name = some v → truthy v = false →
      projectField fields name = .vNull) ∧
    (fields.lookup name = none → projectField fields name = .vNull) := by
  refine ⟨?_, ?_, ?_⟩
  · intro v hv htr
    simp [projectField, hn, hv, jsOr, htr]
  · intro v hv htr
    simp [projectField, hn, hv, jsOr, htr]
  · intro hv
    simp [projectField, hn, hv, jsOr, truthy]

/-- Witness for C6: a truthy value passes through, a falsy one and a
missing one project to null. -/
theorem non_picture_projection_witness :
    projectField [("Latitude", JVal.vNum 7)] "Latitude" = JVal.vNum 7 ∧
    projectField [("Latitude", JVal.vNum 0)] "Latitude" = JVal.vNull ∧
    projectField [] "Latitude" = JVal.vNull :=
  ⟨(non_picture_projection [("Latitude", JVal.vNum 7)] "Latitude" (by decide)
      (by decide)).1 _ rfl (by decide),
   (non_picture_projection [("Latitude", JVal.vNum 0)] "Latitude" (by decide)
      (by decide)).2.1 _ rfl (by decide),
   (non_picture_projection [] "Latitude" (by decide) (by decide)).2.2 rfl⟩

/-- Counterexample to C6 as stated: `Latitude` present with raw value `0`
is projected to null, not verbatim, because `field || null` discards
falsy values. -/
theorem non_picture_projection_cex :
    [(("Latitude" : String), JVal.vNum 0)].lookup "Latitude" = some (JVal.vNum 0) ∧
    projectField [("Latitude", JVal.vNum 0)] "Latitude" = JVal.vNull ∧
    JVal.vNull ≠ JVal.vNum 0 := by
  refine ⟨rfl, rfl, by decide⟩

theorem syncMock_found (p : Platform) (feltMapId csvUrl layerName : String) (l : Layer)
    (h : p.layers.find? (fun x => x.name == layerName) = some l) :
    createOrRefreshFeltLayer feltMock p feltMapId csvUrl layerName =
      (.ok (some (.data "refreshed")),
       [.listLayers feltMapId, .listLayers feltMapId, .refresh feltMapId l.id csvUrl], p) := by
  have hany := any_of_find?_some h
  simp [createOrRefreshFeltLayer, checkLayerExists, feltMock, hany, h]

theorem syncMock_not_found (p : Platform) (feltMapId csvUrl layerName : String)
    (h : p.layers.find? (fun x => x.name == layerName) = none) :
    createOrRefreshFeltLayer feltMock p feltMapId csvUrl layerName =
      (.ok (some (.data "created")),
       [.listLayers feltMapId, .upload feltMapId layerName csvUrl],
       ⟨p.layers ++ [⟨"L" ++ toString p.nextId, layerName⟩], p.nextId + 1⟩) := by
  have hany := any_false_of_find?_none h
  simp [createOrRefreshFeltLayer, checkLayerExists, feltMock, hany]

theorem countName_pos_of_found (p : Platform) (layerName : String) (l : Layer)
    (h : p.layers.find? (fun x => x.name == layerName) = some l) :
    1 ≤ countName p layerName := by
  have hl : (l.name == layerName) = true := by
    have hp := List.find?_some h
    simpa using hp
  have hmem : l ∈ p.layers.filter (fun x => x.name == layerName) :=
    List.mem_filter.mpr ⟨List.mem_of_find?_eq_some h, hl⟩
  have hne : p.layers.filter (fun x => x.name == layerName) ≠ [] :=
    List.ne_nil_of_mem hmem
  simpa [countName] using List.length_pos.mpr hne

theorem countName_zero_of_none (p : Platform) (layerName : String)
    (h : p.layers.find? (fun x => x.name == layerName) = none) :
    countName p layerName = 0 := by
  have hall := List.find?_eq_none.mp h
  simp [countName, List.filter_eq_nil]
  intro a ha
  simpa using hall a ha

theorem syncPlatform_of_found (p : Platform) (feltMapId csvUrl layerName : String) (l : Layer)
    (h : p.layers.find? (fun x => x.name == layerName) = some l) :
    syncPlatform p feltMapId csvUrl layerName = p := by
  unfold syncPlatform
  rw [syncMock_found p feltMapId csvUrl layerName l h]

theorem syncPlatform_of_not_found (p : Platform) (feltMapId csvUrl layerName : String)
    (h : p.layers.find? (fun x => x.name == layerName) = none) :
    syncPlatform p feltMapId csvUrl layerName =
      ⟨p.layers ++ [⟨"L" ++ toString p.nextId, layerName⟩], p.nextId + 1⟩ := by
  unfold syncPlatform
  rw [syncMock_not_found p feltMapId csvUrl layerName h]

/-- C1 (amended): against the mock platform, the synchronizer refreshes
the found layer's id and issues no upload whenever a layer with the
target name exists, and uploads exactly once when none exists; hence two
successive runs starting from a platform carrying at most one layer of
that name leave exactly one such layer. -/
theorem sync_refresh_not_create (p : Platform) (feltMapId csvUrl layerName : String) :
    (∀ l, p.layers.find? (fun x => x.name == layerName) = some l →
      createOrRefreshFeltLayer feltMock p feltMapId csvUrl layerName =
        (.ok (some (.data "refreshed")),
         [.listLayers feltMapId, .listLayers feltMapId, .refresh feltMapId l.id csvUrl], p)) ∧
    (p.layers.find? (fun x => x.name == layerName) = none →
      createOrRefreshFeltLayer feltMock p feltMapId csvUrl layerName =
        (.ok (some (.data "created")),
         [.listLayers feltMapId, .upload feltMapId layerName csvUrl],
         ⟨p.layers ++ [⟨"L" ++ toString p.nextId, layerName⟩], p.nextId + 1⟩)) ∧
    (countName p layerName ≤ 1 →
      countName (syncPlatform (syncPlatform p feltMapId csvUrl layerName)
        feltMapId csvUrl layerName) layerName = 1) := by
  refine ⟨fun l h => syncMock_found p feltMapId csvUrl layerName l h,
    fun h => syncMock_not_found p feltMapId csvUrl layerName h, ?_⟩
  intro hle
  cases hf : p.layers.find? (fun x => x.name == layerName) with
  | some l =>
    rw [syncPlatform_of_found p feltMapId csvUrl layerName l hf,
      syncPlatform_of_found p feltMapId csvUrl layerName l hf]
    exact Nat.le_antisymm hle (countName_pos_of_found p layerName l hf)
  | none =>
    rw [syncPlatform_of_not_found p feltMapId csvUrl layerName hf]
    have hf2 : (p.layers ++ [(⟨"L" ++ toString p.nextId, layerName⟩ : Layer)]).find?
        (fun x => x.name == layerName) = some ⟨"L" ++ toString p.nextId, layerName⟩ := by
      rw [find?_append_of_none hf]
      simp [List.find?]
    have e2 := syncPlatform_of_found
      (⟨p.layers ++ [⟨"L" ++ toString p.nextId, layerName⟩], p.nextId + 1⟩ : Platform)
      feltMapId csvUrl layerName ⟨"L" ++ toString p.nextId, layerName⟩ hf2
    rw [e2]
    have h0 := countName_zero_of_none p layerName hf
    simp [countName, List.filter_append] at h0 ⊢
    exact h0

/-- Witness for C1: a one-layer platform is refreshed in place, an empty
platform receives exactly one upload, and two runs from empty leave one
layer named `Poster Submissions`. -/
theorem sync_refresh_not_create_witness :
    createOrRefreshFeltLayer feltMock ⟨[⟨"id7", "Poster Submissions"⟩], 5⟩ "m" "u"
      "Poster Submissions" =
      (.ok (some (.data "refreshed")),
       [.listLayers "m", .listLayers "m", .refresh "m" "id7" "u"],
       ⟨[⟨"id7", "Poster Submissions"⟩], 5⟩) ∧
    createOrRefreshFeltLayer feltMock ⟨[], 0⟩ "m" "u" "Poster Submissions" =
      (.ok (some (.data "created")),
       [.listLayers "m", .upload "m" "Poster Submissions" "u"],
       ⟨[⟨"L0", "Poster Submissions"⟩], 1⟩) ∧
    countName (syncPlatform (syncPlatform ⟨[], 0⟩ "m" "u" "Poster Submissions") "m" "u"
      "Poster Submissions") "Poster Submissions" = 1 :=
  ⟨(sync_refresh_not_create ⟨[⟨"id7", "Poster Submissions"⟩], 5⟩ "m" "u"
      "Poster Submissions").1 ⟨"id7", "Poster Submissions"⟩ (by decide),
   (sync_refresh_not_create ⟨[], 0⟩ "m" "u" "Poster Submissions").2.1 (by decide),
   (sync_refresh_not_create ⟨[], 0⟩ "m" "u" "Poster Submissions").2.2 (by decide)⟩

/-- Counterexample to C1 as stated: from a map state already holding two
layers named `Poster Submissions`, two successive synchronizer runs
refresh the first duplicate and leave two layers of that name, not
exactly one. -/
theorem sync_refresh_not_create_cex :
    countName (syncPlatform (syncPlatform
      ⟨[⟨"a", "Poster Submissions"⟩, ⟨"b", "Poster Submissions"⟩], 0⟩
      "m" "u" "Poster Submissions") "m" "u" "Poster Submissions") "Poster Submissions" ≠ 1 := by
  decide

/-- C3 (amended): after teardown the process always terminates with exit
status 0, for every combination of step outcomes — pipeline failures do
not change the exit indicator. -/
theorem pipeline_exit_zero {σ : Type} (fetchResult : Except String (List AirRecord))
    (ngrokConnect : Except String String) (N : Net σ) (s0 : σ)
    (feltMapId layerName : String) :
    (runPipeline fetchResult ngrokConnect N s0 feltMapId layerName).exitCode = 0 := by
  unfold runPipeline
  rcases fetchResult with e | records
  · rfl
  · dsimp only
    split
    · rfl
    · rcases ngrokConnect with e | url
      · rfl
      · dsimp only
        rcases hr : createOrRefreshFeltLayer N s0 feltMapId (url ++ "/offerings.csv")
          layerName with ⟨res, reqs, st⟩
        rcases res with e | v <;> simp [hr]

/-- Counterexample to C3 as stated: a failed fetch step still ends in
exit status 0, not a non-zero failure indicator. -/
theorem pipeline_exit_cex :
    (runPipeline (.error "fetch failed") (.ok "https://t") feltMock ⟨[], 0⟩ "m"
      "Poster Submissions").pipelineError = some "fetch failed" ∧
    (runPipeline (.error "fetch failed") (.ok "https://t") feltMock ⟨[], 0⟩ "m"
      "Poster Submissions").exitCode = 0 :=
  ⟨rfl, rfl⟩

/-- C4 (code bug): when `ngrok.connect` rejects, `hostCsvWithNgrok` has
already started the express listener, but the outer `server` variable was
never assigned, so teardown makes zero close calls on the started
listener — not the exactly-one close call the claim requires. -/
theorem listener_leak_on_tunnel_failure :
    (runPipeline (.ok [⟨[("Latitude", JVal.vNum 1)]⟩]) (.error "ERR_NGROK_4018") feltMock
      ⟨[], 0⟩ "m" "Poster Submissions").listenerStarted = true ∧
    (runPipeline (.ok [⟨[("Latitude", JVal.vNum 1)]⟩]) (.error "ERR_NGROK_4018") feltMock
      ⟨[], 0⟩ "m" "Poster Submissions").serverCloseCalls = 0 ∧
    (runPipeline (.ok [⟨[("Latitude", JVal.vNum 1)]⟩]) (.error "ERR_NGROK_4018") feltMock
      ⟨[], 0⟩ "m" "Poster Submissions").pipelineError = some "ERR_NGROK_4018" :=
  ⟨rfl, rfl, rfl⟩

/-- C9 (confirmed): a fetch returning zero records ends the process with
exit status 0 immediately: no CSV is produced, no file written, no
listener or tunnel started, and no platform request issued. -/
theorem empty_records_early_exit {σ : Type} (ngrokConnect : Except String String)
    (N : Net σ) (s0 : σ) (feltMapId layerName : String) :
    runPipeline (.ok []) ngrokConnect N s0 feltMapId layerName =
      ⟨0, none, none, false, false, false, 0, 0, [], s0⟩ :=
  rfl

/-- C10 (confirmed): when the existence check sees the target name but
the second layer-list fetch no longer contains it, the synchronizer
returns `undefined` (`none`), issues only the two list requests — no
create, no refresh — and raises no error. -/
theorem stale_exists_returns_undefined (script : Nat → HttpResponse)
    (feltMapId csvUrl layerName : String) (ls1 ls2 : List Layer)
    (h0ok : (script 0).ok = true) (h0j : (script 0).json = .layers ls1)
    (h0any : ls1.any (fun x => x.name == layerName) = true)
    (h1ok : (script 1).ok = true) (h1j : (script 1).json = .layers ls2)
    (h1f : ls2.find? (fun x => x.name == layerName) = none) :
    createOrRefreshFeltLayer (scriptNet script) 0 feltMapId csvUrl layerName =
      (.ok none, [.listLayers feltMapId, .listLayers feltMapId], 2) := by
  simp [createOrRefreshFeltLayer, checkLayerExists, scriptNet, h0ok, h0j, h0any, h1ok,
    h1j, h1f]

/-- Witness for C10: a scripted platform whose first list contains the
layer and whose second list is empty. -/
theorem stale_exists_returns_undefined_witness :
    createOrRefreshFeltLayer (scriptNet (fun n =>
      if n = 0 then ⟨true, 200, "OK", .layers [⟨"a", "Poster Submissions"⟩], "x"⟩
      else ⟨true, 200, "OK", .layers [], "x"⟩)) 0 "m" "u" "Poster Submissions" =
      (.ok none, [.listLayers "m", .listLayers "m"], 2) :=
  stale_exists_returns_undefined _ "m" "u" "Poster Submissions"
    [⟨"a", "Poster Submissions"⟩] [] rfl rfl (by decide) rfl rfl rfl

/-- C7 (amended): a non-success response to the layer-list, create, or
refresh request makes the synchronizer fail with an error carrying that
response's HTTP status text (but not the numeric status or the response
body), and each failing request is issued exactly once, with no retry. -/
theorem sync_error_status_text (sc1 sc2 sc3 : Nat → HttpResponse)
    (feltMapId csvUrl layerName : String) (ls2 ls3a ls3b : List Layer) (l : Layer) :
    ((sc1 0).ok = false →
      createOrRefreshFeltLayer (scriptNet sc1) 0 feltMapId csvUrl layerName =
        (.error ("Failed to fetch layers: " ++ (sc1 0).statusText),
         [.listLayers feltMapId], 1)) ∧
    ((sc2 0).ok = true → (sc2 0).json = .layers ls2 →
      ls2.any (fun x => x.name == layerName) = false → (sc2 1).ok = false →
      createOrRefreshFeltLayer (scriptNet sc2) 0 feltMapId csvUrl layerName =
        (.error ("Failed to create new layer: " ++ (sc2 1).statusText),
         [.listLayers feltMapId, .upload feltMapId layerName csvUrl], 2)) ∧
    ((sc3 0).ok = true → (sc3 0).json = .layers ls3a →
      ls3a.any (fun x => x.name == layerName) = true →
      (sc3 1).ok = true → (sc3 1).json = .layers ls3b →
      ls3b.find? (fun x => x.name == layerName) = some l → (sc3 2).ok = false →
      createOrRefreshFeltLayer (scriptNet sc3) 0 feltMapId csvUrl layerName =
        (.error ("Failed to refresh layer: " ++ (sc3 2).statusText),
         [.listLayers feltMapId, .listLayers feltMapId, .refresh feltMapId l.id csvUrl],
         3)) := by
  refine ⟨?_, ?_, ?_⟩ <;> intros <;>
    simp [createOrRefreshFeltLayer, checkLayerExists, scriptNet, *]

/-- Witness for C7: concrete failing responses at each of the three
request sites. -/
theorem sync_error_status_text_witness :
    createOrRefreshFeltLayer (scriptNet (fun _ =>
      ⟨false, 500, "Internal Server Error", .layers [], "boom"⟩)) 0 "m" "u"
      "Poster Submissions" =
      (.error "Failed to fetch layers: Internal Server Error", [.listLayers "m"], 1) ∧
    createOrRefreshFeltLayer (scriptNet (fun n =>
      if n = 0 then ⟨true, 200, "OK", .layers [], "x"⟩
      else ⟨false, 409, "Conflict", .data "e", "b"⟩)) 0 "m" "u" "Poster Submissions" =
      (.error "Failed to create new layer: Conflict",
       [.listLayers "m", .upload "m" "Poster Submissions" "u"], 2) ∧
    createOrRefreshFeltLayer (scriptNet (fun n =>
      if n ≤ 1 then ⟨true, 200, "OK", .layers [⟨"a", "Poster Submissions"⟩], "x"⟩
      else ⟨false, 500, "Internal Server Error", .data "e", "b"⟩)) 0 "m" "u"
      "Poster Submissions" =
      (.error "Failed to refresh layer: Internal Server Error",
       [.listLayers "m", .listLayers "m", .refresh "m" "a" "u"], 3) :=
  ⟨(sync_error_status_text (fun _ => ⟨false, 500, "Internal Server Error", .layers [], "boom"⟩)
      (fun n => if n = 0 then ⟨true, 200, "OK", .layers [], "x"⟩
        else ⟨false, 409, "Conflict", .data "e", "b"⟩)
      (fun n => if n ≤ 1 then ⟨true, 200, "OK", .layers [⟨"a", "Poster Submissions"⟩], "x"⟩
        else ⟨false, 500, "Internal Server Error", .data "e", "b"⟩)
      "m" "u" "Poster Submissions" [] [⟨"a", "Poster Submissions"⟩]
      [⟨"a", "Poster Submissions"⟩] ⟨"a", "Poster Submissions"⟩).1 rfl,
   (sync_error_status_text (fun _ => ⟨false, 500, "Internal Server Error", .layers [], "boom"⟩)
      (fun n => if n = 0 then ⟨true, 200, "OK", .layers [], "x"⟩
        else ⟨false, 409, "Conflict", .data "e", "b"⟩)
      (fun n => if n ≤ 1 then ⟨true, 200, "OK", .layers [⟨"a", "Poster Submissions"⟩], "x"⟩
        else ⟨false, 500, "Internal Server Error", .data "e", "b"⟩)
      "m" "u" "Poster Submissions" [] [⟨"a", "Poster Submissions"⟩]
      [⟨"a", "Poster Submissions"⟩] ⟨"a", "Poster Submissions"⟩).2.1 rfl rfl (by decide) rfl,
   (sync_error_status_text (fun _ => ⟨false, 500, "Internal Server Error", .layers [], "boom"⟩)
      (fun n => if n = 0 then ⟨true, 200, "OK", .layers [], "x"⟩
        else ⟨false, 409, "Conflict", .data "e", "b"⟩)
      (fun n => if n ≤ 1 then ⟨true, 200, "OK", .layers [⟨"a", "Poster Submissions"⟩], "x"⟩
        else ⟨false, 500, "Internal Server Error", .data "e", "b"⟩)
      "m" "u" "Poster Submissions" [] [⟨"a", "Poster Submissions"⟩]
      [⟨"a", "Poster Submissions"⟩] ⟨"a", "Poster Submissions"⟩).2.2 rfl rfl (by decide)
      rfl rfl (by decide) rfl⟩

/-- Counterexample to C7 as stated: a 500 response with body text makes
the synchronizer throw `Failed to fetch layers: Internal Server Error`,
a message that contains neither the numeric HTTP status nor the response
body. -/
theorem sync_error_cex :
    createOrRefreshFeltLayer (scriptNet (fun _ =>
      ⟨false, 500, "Internal Server Error", .layers [], "upstream exploded"⟩)) 0 "m" "u"
      "Poster Submissions" =
      (.error "Failed to fetch layers: Internal Server Error", [.listLayers "m"], 1) ∧
    strContainsSub "Failed to fetch layers: Internal Server Error" "500" = false ∧
    strContainsSub "Failed to fetch layers: Internal Server Error" "upstream exploded" =
      false := by
  refine ⟨rfl, by decide, by decide⟩

theorem csvParse_nil (inQ : Bool) (field : List Char) (row : List String)
    (acc : List (List String)) :
    csvParse [] inQ field row acc =
      if field = [] ∧ row = [] then acc else acc ++ [row ++ [String.mk field]] := by
  simp [csvParse]

theorem csvParse_plain_other (c : Char) (cs : List Char) (h1 : c ≠ '"') (h2 : c ≠ ',')
    (h3 : c ≠ '\n') (h4 : c ≠ '\r') (field : List Char) (row : List String)
    (acc : List (List String)) :
    csvParse (c :: cs) false field row acc = csvParse cs false (field ++ [c]) row acc := by
  rw [csvParse.eq_def]
  simp [h1, h2, h3, h4]

theorem csvParse_plain_comma (cs : List Char) (field : List Char) (row : List String)
    (acc : List (List String)) :
    csvParse (',' :: cs) false field row acc =
      csvParse cs false [] (row ++ [String.mk field]) acc := by
  rw [csvParse.eq_def]
  simp +decide

theorem csvParse_plain_nl (cs : List Char) (field : List Char) (row : List String)
    (acc : List (List String)) :
    csvParse ('\n' :: cs) false field row acc =
      csvParse cs false [] [] (acc ++ [row ++ [String.mk field]]) := by
  rw [csvParse.eq_def]
  simp +decide

theorem csvParse_plain_quote (cs : List Char) (field : List Char) (row : List String)
    (acc : List (List String)) :
    csvParse ('"' :: cs) false field row acc = csvParse cs true field row acc := by
  rw [csvParse.eq_def]
  simp +decide

theorem csvParse_quoted_other (c : Char) (cs : List Char) (h : c ≠ '"')
    (field : List Char) (row : List String) (acc : List (List String)) :
    csvParse (c :: cs) true field row acc = csvParse cs true (field ++ [c]) row acc := by
  rw [csvParse.eq_def]
  simp [h]

theorem csvParse_quoted_pair (cs : List Char) (field : List Char) (row : List String)
    (acc : List (List String)) :
    csvParse ('"' :: '"' :: cs) true field row acc =
      csvParse cs true (field ++ ['"']) row acc := by
  rw [csvParse.eq_def]
  simp +decide

theorem csvParse_quoted_close (rest : List Char) (h : headNotQuote rest)
    (field : List Char) (row : List String) (acc : List (List String)) :
    csvParse ('"' :: rest) true field row acc = csvParse rest false field row acc := by
  cases rest with
  | nil =>
    rw [csvParse.eq_def]
    simp +decide
  | cons c cs =>
    have hc : c ≠ '"' := h
    rw [csvParse.eq_def]
    simp +decide [hc]

theorem csvParse_copy (cs : List Char) (h : ∀ c ∈ cs, isSpecialChar c = false) :
    ∀ (rest field : List Char) (row : List String) (acc : List (List String)),
    csvParse (cs ++ rest) false field row acc = csvParse rest false (field ++ cs) row acc := by
  induction cs with
  | nil => intro rest field row acc; simp
  | cons c cs ih =>
    intro rest field row acc
    have hc := h c (List.mem_cons_self c cs)
    simp only [isSpecialChar, Bool.or_eq_false_iff, beq_eq_false_iff_ne, ne_eq] at hc
    obtain ⟨⟨⟨h2, h1⟩, h3⟩, h4⟩ := hc
    rw [List.cons_append, csvParse_plain_other c (cs ++ rest) h1 h2 h3 h4]
    rw [ih (fun x hx => h x (List.mem_cons_of_mem c hx)) rest (field ++ [c]) row acc]
    rw [← List.append_cons]

theorem csvParse_esc (cs : List Char) :
    ∀ (rest : List Char), headNotQuote rest →
    ∀ (field : List Char) (row : List String) (acc : List (List String)),
    csvParse (escChars cs ++ ('"' :: rest)) true field row acc =
      csvParse rest false (field ++ cs) row acc := by
  induction cs with
  | nil =>
    intro rest h field row acc
    simp only [escChars, List.nil_append]
    rw [csvParse_quoted_close rest h field row acc]
    simp
  | cons c cs ih =>
    intro rest h field row acc
    by_cases hc : c = '"'
    · subst hc
      simp only [escChars, if_pos rfl, if_true, List.cons_append]
      rw [csvParse_quoted_pair]
      rw [ih rest h (field ++ ['"']) row acc]
      rw [← List.append_cons]
    · simp only [escChars, if_neg hc, List.cons_append]
      rw [csvParse_quoted_other c _ hc]
      rw [ih rest h (field ++ [c]) row acc]
      rw [← List.append_cons]

theorem csvParse_serField (cs : List Char) (rest : List Char) (h : headNotQuote rest)
    (row : List String) (acc : List (List String)) :
    csvParse (serFieldChars cs ++ rest) false [] row acc = csvParse rest false cs row acc := by
  unfold serFieldChars
  by_cases hq : cs.any isSpecialChar = true
  · rw [if_pos hq]
    simp only [List.cons_append]
    rw [csvParse_plain_quote]
    rw [show (escChars cs ++ ['"']) ++ rest = escChars cs ++ ('"' :: rest) by simp]
    rw [csvParse_esc cs rest h [] row acc]
    simp
  · rw [if_neg hq]
    have hq2 : cs.any isSpecialChar = false := by simpa using hq
    have hall : ∀ c ∈ cs, isSpecialChar c = false := by
      intro c hcmem
      have := List.any_eq_false.mp hq2 c hcmem
      simpa using this
    rw [csvParse_copy cs hall rest [] row acc]
    simp

theorem csvParse_serRow (cells : List (List Char)) (hne : cells ≠ []) :
    ∀ (rest : List Char) (row : List String) (acc : List (List String)),
    csvParse (serRowChars cells ++ ('\n' :: rest)) false [] row acc =
      csvParse rest false [] [] (acc ++ [row ++ cells.map String.mk]) := by
  induction cells with
  | nil => exact absurd rfl hne
  | cons f fs ih =>
    intro rest row acc
    cases fs with
    | nil =>
      simp only [serRowChars, List.map_cons, List.map_nil, joinComma]
      rw [csvParse_serField f ('\n' :: rest) (show ('\n' : Char) ≠ '"' by decide) row acc]
      rw [csvParse_plain_nl]
    | cons f2 fs2 =>
      simp only [serRowChars, List.map_cons, joinComma]
      rw [show (serFieldChars f ++ ',' :: joinComma (serFieldChars f2 ::
          List.map serFieldChars fs2)) ++ ('\n' :: rest) =
        serFieldChars f ++ (',' :: (joinComma (serFieldChars f2 ::
          List.map serFieldChars fs2) ++ ('\n' :: rest))) by simp]
      rw [csvParse_serField f (',' :: (joinComma (serFieldChars f2 ::
        List.map serFieldChars fs2) ++ ('\n' :: rest)))
        (show (',' : Char) ≠ '"' by decide) row acc]
      rw [csvParse_plain_comma]
      have hrec := ih (List.cons_ne_nil f2 fs2) rest (row ++ [String.mk f]) acc
      simp only [serRowChars, List.map_cons] at hrec
      rw [hrec]
      simp

theorem csvParse_serDoc (rows : List (List (List Char))) (h : ∀ r ∈ rows, r ≠ []) :
    ∀ acc : List (List String),
    csvParse (serDocChars rows) false [] [] acc =
      acc ++ rows.map (fun r => r.map String.mk) := by
  induction rows with
  | nil => intro acc; simp [serDocChars, csvParse_nil]
  | cons r rs ih =>
    intro acc
    simp only [serDocChars, List.map_cons, List.flatten_cons]
    rw [show (serRowChars r ++ ['\n']) ++
        (List.map (fun r => serRowChars r ++ ['\n']) rs).flatten =
      serRowChars r ++ ('\n' ::
        (List.map (fun r => serRowChars r ++ ['\n']) rs).flatten) by simp]
    rw [csvParse_serRow r (h r (List.mem_cons_self r rs)) _ [] acc]
    simp only [List.nil_append]
    have hrec := ih (fun x hx => h x (List.mem_cons_of_mem r hx)) (acc ++ [r.map String.mk])
    simp only [serDocChars] at hrec
    rw [hrec]
    simp

theorem map_mk_data (r : List String) : (r.map String.data).map String.mk = r := by
  induction r with
  | nil => rfl
  | cons s ss ih =>
    simp only [List.map_cons, ih]

theorem doc_mk_data (doc : List (List String)) :
    (doc.map (fun r => r.map String.data)).map (fun r => r.map String.mk) = doc := by
  induction doc with
  | nil => rfl
  | cons d ds ih =>
    simp only [List.map_cons, ih, map_mk_data]

theorem prepareRows_length (records : List AirRecord) :
    ∀ row ∈ prepareRows records, row.length = 4 := by
  intro row hrow
  simp only [prepareRows, List.mem_cons] at hrow
  rcases hrow with h | h
  · subst h; rfl
  · obtain ⟨rec, _, rfl⟩ := List.mem_map.mp h
    simp [projectRecord, desiredFields]

theorem serInput_ne_nil (records : List AirRecord) :
    ∀ r ∈ (csvCells records).map (fun row => row.map String.data), r ≠ [] := by
  intro r hr
  obtain ⟨r1, hr1, rfl⟩ := List.mem_map.mp hr
  obtain ⟨r2, hr2, rfl⟩ := List.mem_map.mp hr1
  have h4 := prepareRows_length records r2 hr2
  exact List.ne_nil_of_length_pos (by simp [h4])

/-- C8 (confirmed): serializing the document produced by the projector
(csv-stringify defaults) and parsing it back with a standard RFC-4180 CSV
parser reproduces the header and every row exactly, cell for cell, with
each cell in the string form csv-stringify cast it to. -/
theorem csv_round_trip (records : List AirRecord) :
    parseCsv (prepareCsvData records) = csvCells records ∧
    (parseCsv (prepareCsvData records)).head? = some desiredFields := by
  have h1 : parseCsv (prepareCsvData records) = csvCells records := by
    unfold parseCsv prepareCsvData stringifyDoc
    rw [show (String.mk (serDocChars ((csvCells records).map
        (fun r => r.map String.data)))).data =
      serDocChars ((csvCells records).map (fun r => r.map String.data)) from rfl]
    rw [csvParse_serDoc _ (serInput_ne_nil records) []]
    rw [List.nil_append]
    exact doc_mk_data (csvCells records)
  refine ⟨h1, ?_⟩
  rw [h1]
  rfl
